import Mathlib

/-!
Verification of the B2B order intake-and-fulfillment orchestrator.

Shallow embedding of the Go sources:
- `internal/domain/enums.go`   : order status enum and transition table
- `internal/domain/models.go`  : data model (orders, items, SKU mappings, ...)
- `internal/service/sku_service.go` : SKU classification, order creation,
  lifecycle transitions (confirm / reject / ship)
- `internal/service/shopify_service.go` : draft-order construction (line
  items, shipping address, name splitting)
- `internal/api/handlers/cart.go`      : cart submission handler (idempotency
  recording, two-step downstream saga with partial-failure tolerance)
- `internal/api/handlers/orders.go`    : order fetch handler (ownership check)

Modelling conventions: UUIDs become `Nat` ids; `float64` monetary amounts
become `Int` (no claim depends on float rounding); Go `nil`-able pointers
become `Option`; Go maps with string keys become association lists; fallible
repository / network calls have their outcomes injected through explicit
environment records, and a Go panic is modelled as `none`.
-/

namespace B2B

/-! ## Order status state machine (`internal/domain/enums.go`) -/

inductive OrderStatus where
  | pendingConfirmation
  | confirmed
  | rejected
  | shipped
  | delivered
  | cancelled
  deriving DecidableEq, Repr, Fintype

/-- Translation of `OrderStatus.CanTransitionTo` (enums.go lines 31-47). -/
def OrderStatus.canTransitionTo : OrderStatus → OrderStatus → Bool
  | .pendingConfirmation, t =>
      t == .confirmed || t == .rejected || t == .cancelled
  | .confirmed, t => t == .shipped || t == .cancelled
  | .shipped, t => t == .delivered
  | .rejected, _ => false
  | .delivered, _ => false
  | .cancelled, _ => false

/-- The transition table enumerated in spec §4.3. -/
def allowedTransitions : List (OrderStatus × OrderStatus) :=
  [(.pendingConfirmation, .confirmed),
   (.pendingConfirmation, .rejected),
   (.pendingConfirmation, .cancelled),
   (.confirmed, .shipped),
   (.confirmed, .cancelled),
   (.shipped, .delivered)]

/-- C2: for every pair of order statuses `(s, t)`, `s.CanTransitionTo t`
returns true exactly when `(s, t)` is one of the six pairs of §4.3's table
(PENDING_CONFIRMATION → CONFIRMED/REJECTED/CANCELLED, CONFIRMED →
SHIPPED/CANCELLED, SHIPPED → DELIVERED), and false for every other pair,
including every self-transition and every transition out of the terminal
states REJECTED, DELIVERED and CANCELLED. -/
theorem canTransitionTo_spec (s t : OrderStatus) :
    s.canTransitionTo t = true ↔ (s, t) ∈ allowedTransitions := by
  revert s t
  decide

/-! ## Data model (`internal/domain/models.go`, `internal/api/handlers/cart.go`) -/

/-- `domain.SKUMapping`. -/
structure SKUMapping where
  sku : String
  shopifyProductID : Int
  shopifyVariantID : Int
  isActive : Bool
  deriving DecidableEq, Repr

/-- `service.CartItem` (also `handlers.CartItem`, identical shape). -/
structure CartItem where
  sku : String
  title : String
  price : Int
  quantity : Nat
  productURL : Option String
  deriving DecidableEq, Repr

/-- `service.CustomerInfo`. -/
structure CustomerInfo where
  name : String
  phone : Option String
  deriving DecidableEq, Repr

/-- `service.ShippingAddress` (the inbound request shape). -/
structure ShippingAddress where
  street : String
  city : String
  state : Option String
  postalCode : String
  country : String
  deriving DecidableEq, Repr

/-- `service.CartTotals`. -/
structure CartTotals where
  subtotal : Int
  tax : Int
  shipping : Int
  total : Int
  deriving DecidableEq, Repr

/-- `service.CartSubmitRequest`. -/
structure CartSubmitRequest where
  partnerOrderID : String
  items : List CartItem
  customer : CustomerInfo
  shipping : ShippingAddress
  totals : CartTotals
  paymentStatus : String
  deriving DecidableEq, Repr

/-- `domain.SupplierOrder`.  The `ShippingAddress` JSONB column (a
`map[string]interface{}` holding string values) is an association list.
`shopifyOrderID` is the finalized downstream id that
`HandleCartSubmit`/`UpdateShopifyOrderID` read and write. -/
structure SupplierOrder where
  id : Nat
  partnerID : Nat
  partnerOrderID : String
  status : OrderStatus
  shopifyDraftOrderID : Option Int
  shopifyOrderID : Option Int
  customerName : String
  customerPhone : String
  shippingAddress : List (String × String)
  cartTotal : Int
  paymentStatus : String
  rejectionReason : Option String
  trackingCarrier : Option String
  trackingNumber : Option String
  trackingURL : Option String
  deriving DecidableEq, Repr

/-- `domain.SupplierOrderItem`. -/
structure SupplierOrderItem where
  supplierOrderID : Nat
  sku : String
  title : String
  price : Int
  quantity : Nat
  productURL : Option String
  isSupplierItem : Bool
  shopifyVariantID : Option Int
  deriving DecidableEq, Repr

/-- `domain.IdempotencyKey`. -/
structure IdempotencyKey where
  key : String
  partnerID : Nat
  supplierOrderID : Nat
  requestHash : String
  deriving DecidableEq, Repr

/-- `domain.OrderEvent`; the JSONB payload is an association list of the
string renderings of the logged fields. -/
structure OrderEvent where
  supplierOrderID : Nat
  eventType : String
  eventData : List (String × String)
  deriving DecidableEq, Repr

/-- `domain.Partner` (the fields the handlers use). -/
structure Partner where
  id : Nat
  name : String
  deriving DecidableEq, Repr

/-! ## SKU classifier (`internal/service/sku_service.go`, lines 27-46)

The Go `map[string]*domain.SKUMapping` is modelled as an association list
with overwrite-on-insert, which matches the map operations the code uses:
indexing assignment, lookup, and `len`. -/

/-- The classification map `SKU → mapping`. -/
abbrev SKUMap := List (String × SKUMapping)

/-- Go map index lookup `m[k]`. -/
def mapLookup : SKUMap → String → Option SKUMapping
  | [], _ => none
  | p :: rest, k => if p.1 = k then some p.2 else mapLookup rest k

/-- Go map index assignment `m[k] = v` (overwrites an existing key). -/
def mapInsert : SKUMap → String → SKUMapping → SKUMap
  | [], k, v => [(k, v)]
  | p :: rest, k, v => if p.1 = k then (k, v) :: rest else p :: mapInsert rest k v

/-- One iteration of the classification loop (sku_service.go lines 33-43):
a lookup error or missing mapping (`none`) skips the item and continues;
an inactive mapping is also skipped; only active mappings are recorded. -/
def classifyStep (lookupSKU : String → Option SKUMapping) (acc : SKUMap)
    (item : CartItem) : SKUMap :=
  match lookupSKU item.sku with
  | none => acc
  | some mapping => if mapping.isActive then mapInsert acc item.sku mapping else acc

/-- Translation of `CheckCartForSupplierSKUs` (sku_service.go lines 27-46).
`lookupSKU` is the outcome of `repos.SKUMapping.GetBySKU`, with both a
lookup error and "not found" collapsed to `none` exactly as the code
treats them (the `err != nil` branch only does `continue`).  The function
itself never returns an error in the source, so the error component is
omitted. -/
def checkCartForSupplierSKUs (lookupSKU : String → Option SKUMapping)
    (items : List CartItem) : Bool × SKUMap :=
  let supplierItems := items.foldl (classifyStep lookupSKU) []
  (decide (0 < supplierItems.length), supplierItems)

/-- Spec-side characterization (§4.1): a SKU classifies as a supplier item
iff its lookup resolves to an active mapping. -/
def specActiveMapping (lookupSKU : String → Option SKUMapping) (k : String) : Bool :=
  match lookupSKU k with
  | some m => m.isActive
  | none => false

theorem mapLookup_mapInsert (m : SKUMap) (k k' : String) (v : SKUMapping) :
    mapLookup (mapInsert m k v) k' = if k' = k then some v else mapLookup m k' := by
  induction m with
  | nil =>
    simp only [mapInsert, mapLookup]
    by_cases h : k = k'
    · subst h; simp
    · rw [if_neg h, if_neg (fun hh => h hh.symm)]
  | cons p rest ih =>
    simp only [mapInsert]
    by_cases h : p.1 = k
    · rw [if_pos h]
      simp only [mapLookup]
      by_cases h2 : k = k'
      · subst h2; simp [h]
      · rw [if_neg h2, if_neg (fun hh => h2 hh.symm),
          if_neg (fun hh : p.1 = k' => h2 (h.symm.trans hh))]
    · rw [if_neg h]
      simp only [mapLookup, ih]
      by_cases h2 : p.1 = k'
      · rw [if_pos h2, if_pos h2,
          if_neg (fun hh : k' = k => h (h2.trans hh))]
      · rw [if_neg h2, if_neg h2]

theorem mapInsert_ne_nil (m : SKUMap) (k : String) (v : SKUMapping) :
    mapInsert m k v ≠ [] := by
  cases m with
  | nil => simp [mapInsert]
  | cons p rest =>
    simp only [mapInsert]
    by_cases h : p.1 = k
    · rw [if_pos h]; simp
    · rw [if_neg h]; simp

theorem mapLookup_isSome_of_ne_nil (m : SKUMap) (h : m ≠ []) :
    ∃ k, (mapLookup m k).isSome = true := by
  cases m with
  | nil => exact absurd rfl h
  | cons p rest => exact ⟨p.1, by simp [mapLookup]⟩

theorem classifyStep_lookup_isSome (lookupSKU : String → Option SKUMapping)
    (acc : SKUMap) (it : CartItem) (k : String) :
    (mapLookup (classifyStep lookupSKU acc it) k).isSome =
      ((mapLookup acc k).isSome || ((it.sku == k) && specActiveMapping lookupSKU k)) := by
  cases hl : lookupSKU it.sku with
  | none =>
    by_cases hk : it.sku = k
    · subst hk; simp [classifyStep, hl, specActiveMapping]
    · simp [classifyStep, hl, beq_eq_false_iff_ne.mpr hk]
  | some mapping =>
    by_cases ha : mapping.isActive
    · by_cases hk : it.sku = k
      · subst hk
        simp [classifyStep, hl, ha, mapLookup_mapInsert, specActiveMapping]
      · have hne : ¬(k = it.sku) := fun hh => hk hh.symm
        simp [classifyStep, hl, ha, mapLookup_mapInsert,
          beq_eq_false_iff_ne.mpr hk, hne]
    · by_cases hk : it.sku = k
      · subst hk
        simp [classifyStep, hl, ha, specActiveMapping,
          Bool.not_eq_true mapping.isActive ▸ ha]
      · simp [classifyStep, hl, ha, beq_eq_false_iff_ne.mpr hk]

theorem classifyStep_eq_nil_iff (lookupSKU : String → Option SKUMapping)
    (acc : SKUMap) (it : CartItem) :
    classifyStep lookupSKU acc it = [] ↔
      acc = [] ∧ specActiveMapping lookupSKU it.sku = false := by
  cases hl : lookupSKU it.sku with
  | none => simp [classifyStep, hl, specActiveMapping]
  | some mapping =>
    by_cases ha : mapping.isActive
    · simp [classifyStep, hl, ha, specActiveMapping, mapInsert_ne_nil]
    · simp [classifyStep, hl, ha, specActiveMapping,
        Bool.not_eq_true mapping.isActive ▸ ha]

theorem classify_foldl_lookup (lookupSKU : String → Option SKUMapping)
    (items : List CartItem) (acc : SKUMap) (k : String) :
    (mapLookup (items.foldl (classifyStep lookupSKU) acc) k).isSome =
      ((mapLookup acc k).isSome ||
        ((items.any fun it => it.sku == k) && specActiveMapping lookupSKU k)) := by
  induction items generalizing acc with
  | nil => simp
  | cons it rest ih =>
    simp only [List.foldl_cons, List.any_cons, ih, classifyStep_lookup_isSome]
    cases hacc : (mapLookup acc k).isSome <;>
      cases hsk : (it.sku == k) <;>
      cases hsa : specActiveMapping lookupSKU k <;>
      simp

theorem classify_foldl_nil_iff (lookupSKU : String → Option SKUMapping)
    (items : List CartItem) (acc : SKUMap) :
    items.foldl (classifyStep lookupSKU) acc = [] ↔
      acc = [] ∧ (items.all fun it => !(specActiveMapping lookupSKU it.sku)) := by
  induction items generalizing acc with
  | nil => simp
  | cons it rest ih =>
    simp only [List.foldl_cons, List.all_cons, ih, classifyStep_eq_nil_iff]
    cases hs : specActiveMapping lookupSKU it.sku <;> simp [hs]

/-- C7: for every cart, `CheckCartForSupplierSKUs` returns a map whose keys
are exactly the cart SKUs whose lookup succeeds with an active mapping — a
failed or not-found lookup for one SKU only skips that SKU (the loop
`continue`s) and never aborts classification of the remaining SKUs — and
returns `hasSupplierSKU = true` iff that map is non-empty. -/
theorem checkCartForSupplierSKUs_spec (lookupSKU : String → Option SKUMapping)
    (items : List CartItem) :
    (∀ k : String,
      (mapLookup (checkCartForSupplierSKUs lookupSKU items).2 k).isSome =
        ((items.any fun it => it.sku == k) && specActiveMapping lookupSKU k)) ∧
    ((checkCartForSupplierSKUs lookupSKU items).1 = true ↔
      (checkCartForSupplierSKUs lookupSKU items).2 ≠ []) := by
  unfold checkCartForSupplierSKUs
  refine ⟨fun k => ?_, ?_⟩
  · rw [classify_foldl_lookup]
    simp [mapLookup]
  · simp only [decide_eq_true_eq]
    rw [List.length_pos]

/-! ## Draft-order construction (`internal/service/shopify_service.go`)

`CreateDraftOrder` builds the Step A payload from the stored order and
items.  The GraphQL input structures come from `internal/shopify/queries.go`.
Monetary formatting (`fmt.Sprintf("%.2f", ...)`) is abstracted: the line
item carries the price value itself. -/

/-- `shopify.DraftOrderAttributeInput`. -/
structure DraftOrderAttributeInput where
  key : String
  value : String
  deriving DecidableEq, Repr

/-- `shopify.DraftOrderLineItemInput` (the fields `CreateDraftOrder` sets). -/
structure DraftOrderLineItemInput where
  variantID : Option String
  title : Option String
  originalUnitPrice : Option Int
  quantity : Nat
  customAttributes : List DraftOrderAttributeInput
  deriving DecidableEq, Repr

/-- `shopify.DraftOrderAddressInput`.  `firstName` is a plain (non-pointer)
string in the source, so "unset" is the zero value `""`; `lastName` is a
pointer, so "unset" is `none`. -/
structure DraftOrderAddressInput where
  firstName : String
  lastName : Option String
  address1 : String
  address2 : Option String
  city : String
  province : Option String
  zip : String
  country : String
  phone : Option String
  deriving DecidableEq, Repr

/-- One iteration of the line-item loop in `CreateDraftOrder`
(shopify_service.go lines 88-118).

The Go non-supplier branch builds
`customAttrs := []shopify.DraftOrderAttributeInput{{Key: "product_url",
Value: *item.ProductURL}}` BEFORE the `if item.ProductURL == nil` guard two
lines below, so when `ProductURL` is nil the composite literal dereferences
a nil pointer and the goroutine panics; the guard that would reset
`customAttrs` to the empty slice is dead code.  The panic is modelled as
`none`. -/
def buildDraftOrderLineItem (item : SupplierOrderItem) : Option DraftOrderLineItemInput :=
  match item.isSupplierItem, item.shopifyVariantID with
  | true, some variantID =>
      some { variantID := some ("gid://shopify/ProductVariant/" ++ toString variantID),
             title := none, originalUnitPrice := none,
             quantity := item.quantity, customAttributes := [] }
  | _, _ =>
      match item.productURL with
      | none => none
      | some url =>
          some { variantID := none,
                 title := some (item.title ++ " (URL: " ++ url ++ ")"),
                 originalUnitPrice := some item.price,
                 quantity := item.quantity,
                 customAttributes := [{ key := "product_url", value := url }] }

/-- The full line-item loop: a panic on any item aborts the construction. -/
def buildDraftOrderLineItems : List SupplierOrderItem → Option (List DraftOrderLineItemInput)
  | [] => some []
  | item :: rest =>
    match buildDraftOrderLineItem item with
    | none => none
    | some li =>
      match buildDraftOrderLineItems rest with
      | none => none
      | some lis => some (li :: lis)

/-- A concrete pass-through (non-supplier) order item with no product URL —
a shape the intake path can produce, since `ProductURL` is optional in the
cart payload. -/
def passThroughItemNoURL : SupplierOrderItem :=
  { supplierOrderID := 1, sku := "B", title := "Widget", price := 5,
    quantity := 1, productURL := none, isSupplierItem := false,
    shopifyVariantID := none }

/-- C5 (code bug): the claim says a pass-through item whose product URL is
absent yields a free-form line item with no custom attributes and never an
error or undefined behaviour.  The code instead dereferences the nil
`ProductURL` pointer while building the custom-attribute literal — before
the nil guard two lines later, which is dead code — and panics.  Evaluating
the faithful model at such an item produces the panic value `none` instead
of a line item. -/
theorem buildDraftOrderLineItems_nilURL_panics :
    buildDraftOrderLineItems [passThroughItemNoURL] = none := rfl

/-! ### Shipping address and customer-name splitting
(`CreateDraftOrder`, shopify_service.go lines 120-144) -/

/-- String-valued lookup in a JSONB map, modelling
`m[key].(string)` on the association-list representation. -/
def lookupAssoc : List (String × String) → String → Option String
  | [], _ => none
  | p :: rest, k => if p.1 = k then some p.2 else lookupAssoc rest k

/-- Helper `getStringFromMap` (shopify_service.go lines 220-225): a missing
key yields `""`. -/
def getStringFromMap (m : List (String × String)) (k : String) : String :=
  match lookupAssoc m k with
  | some v => v
  | none => ""

/-- ASCII whitespace recognised by `strings.Fields`' `unicode.IsSpace`
(space, tab, newline, carriage return, vertical tab, form feed; non-ASCII
Unicode spaces are out of scope of the model). -/
def isSpaceChar (c : Char) : Bool :=
  c == ' ' || c == '\t' || c == '\n' || c == '\r' ||
  c == Char.ofNat 11 || c == Char.ofNat 12

/-- `strings.Fields`: split around runs of whitespace, dropping empties. -/
def stringFields (s : String) : List String :=
  (s.split (fun c => isSpaceChar c)).filter (fun t => !(t == ""))

/-- Translation of the shipping-address construction in `CreateDraftOrder`
(shopify_service.go lines 120-144): base address from the stored JSONB
fields, then the customer-name split (first whitespace token → `FirstName`;
remaining tokens joined with `" "` → `LastName`, set only when there are at
least two tokens), then the optional province and phone. -/
def buildShippingAddress (order : SupplierOrder) : DraftOrderAddressInput :=
  let base : DraftOrderAddressInput :=
    { firstName := "", lastName := none,
      address1 := getStringFromMap order.shippingAddress "street",
      address2 := none,
      city := getStringFromMap order.shippingAddress "city",
      province := none,
      zip := getStringFromMap order.shippingAddress "postal_code",
      country := getStringFromMap order.shippingAddress "country",
      phone := none }
  let withName :=
    match stringFields order.customerName with
    | [] => base
    | f :: rest =>
      { base with
        firstName := f,
        lastName := match rest with
          | [] => none
          | _ => some (String.intercalate " " rest) }
  let withProvince :=
    match lookupAssoc order.shippingAddress "state" with
    | some st => if st = "" then withName else { withName with province := some st }
    | none => withName
  if order.customerPhone = "" then withProvince
  else { withProvince with phone := some order.customerPhone }

/-- C8: when building the draft order's shipping address, the customer's
full name is split on whitespace: the first token becomes the first name
and the remaining tokens, joined by single spaces, become the last name; a
single-token name yields a first name and no last name; a name with no
tokens yields neither (`FirstName` keeps its zero value `""` and `LastName`
stays unset). -/
theorem buildShippingAddress_nameSplit (order : SupplierOrder) :
    ((buildShippingAddress order).firstName, (buildShippingAddress order).lastName) =
      (match stringFields order.customerName with
       | [] => ("", none)
       | [f] => (f, none)
       | f :: rest => (f, some (String.intercalate " " rest))) := by
  unfold buildShippingAddress
  have hsplit : ∀ a : DraftOrderAddressInput,
      ((match lookupAssoc order.shippingAddress "state" with
        | some st => if st = "" then a else { a with province := some st }
        | none => a).firstName,
       (match lookupAssoc order.shippingAddress "state" with
        | some st => if st = "" then a else { a with province := some st }
        | none => a).lastName) = (a.firstName, a.lastName) := by
    intro a
    cases lookupAssoc order.shippingAddress "state" with
    | none => rfl
    | some st =>
      by_cases h : st = ""
      · simp [h]
      · simp [h]
  cases hname : stringFields order.customerName with
  | nil =>
    by_cases hp : order.customerPhone = "" <;> simp [hp, hsplit]
  | cons f rest =>
    cases rest with
    | nil =>
      by_cases hp : order.customerPhone = "" <;> simp [hp, hsplit]
    | cons g more =>
      by_cases hp : order.customerPhone = "" <;> simp [hp, hsplit]

/-! ## Repository state

The repositories (Postgres-backed) are modelled as a visible store: each
repository call commits independently against this state, as the Postgres
repositories in the source do (each call issues its own statement on the
shared `*sql.DB` pool; no transaction object is created by the services or
threaded through `context.Context`).  Fallible writes have their outcomes
injected as booleans: `false` means the call returned an error and left the
store unchanged. -/

structure DB where
  orders : List SupplierOrder
  items : List SupplierOrderItem
  events : List OrderEvent
  idempotencyKeys : List IdempotencyKey
  deriving DecidableEq, Repr

/-- `repos.SupplierOrder.GetByID`: `none` models the "not found" outcome. -/
def getOrderByID (db : DB) (orderID : Nat) : Option SupplierOrder :=
  db.orders.find? (fun o => o.id == orderID)

/-- `repos.SupplierOrder.UpdateStatus` (sets status and, for reject, the
rejection reason). -/
def updateOrderStatus (db : DB) (orderID : Nat) (status : OrderStatus)
    (reason : Option String) : DB :=
  { db with orders := db.orders.map (fun o =>
      if o.id = orderID then
        { o with status := status,
                 rejectionReason := match reason with
                   | some r => some r
                   | none => o.rejectionReason }
      else o) }

/-- `repos.SupplierOrder.UpdateShopifyDraftOrderID`. -/
def updateShopifyDraftOrderID (db : DB) (orderID : Nat) (v : Int) : DB :=
  { db with orders := db.orders.map (fun o =>
      if o.id = orderID then { o with shopifyDraftOrderID := some v } else o) }

/-- `repos.SupplierOrder.UpdateShopifyOrderID`. -/
def updateShopifyOrderID (db : DB) (orderID : Nat) (v : Int) : DB :=
  { db with orders := db.orders.map (fun o =>
      if o.id = orderID then { o with shopifyOrderID := some v } else o) }

/-- `repos.OrderEvent.Create` (append-only audit log). -/
def appendEvent (db : DB) (e : OrderEvent) : DB :=
  { db with events := db.events ++ [e] }

/-- `repos.SupplierOrderItem.GetByOrderID`. -/
def getItemsByOrderID (db : DB) (orderID : Nat) : List SupplierOrderItem :=
  db.items.filter (fun it => it.supplierOrderID == orderID)

/-- Error taxonomy of `pkg/errors` as the services use it. -/
inductive ServiceError where
  | notFound
  | invalidStateTransition (fromStatus toStatus : OrderStatus)
  | repoFailure
  deriving DecidableEq, Repr

/-! ## Order creation (`orderService.CreateOrderFromCart`,
sku_service.go lines 112-187) -/

/-- Injected outcomes of the repository calls inside `CreateOrderFromCart`;
`newOrderID` is the id the insert assigns to the new row. -/
structure RepoEnv where
  newOrderID : Nat
  createOrderOK : Bool
  createItemsOK : Bool
  createEventOK : Bool
  deriving DecidableEq, Repr

/-- The `domain.SupplierOrder` value built at sku_service.go lines 118-142:
initial status `PENDING_CONFIRMATION`, no downstream linkage, shipping
address converted to the JSONB map (with `state` only when present). -/
def mkOrderFromCart (newOrderID partnerID : Nat) (req : CartSubmitRequest) :
    SupplierOrder :=
  { id := newOrderID, partnerID := partnerID,
    partnerOrderID := req.partnerOrderID,
    status := OrderStatus.pendingConfirmation,
    shopifyDraftOrderID := none, shopifyOrderID := none,
    customerName := req.customer.name,
    customerPhone := match req.customer.phone with
      | some p => p
      | none => "",
    shippingAddress :=
      (let m := [("street", req.shipping.street), ("city", req.shipping.city),
                 ("postal_code", req.shipping.postalCode),
                 ("country", req.shipping.country)]
       match req.shipping.state with
       | some st => m ++ [("state", st)]
       | none => m),
    cartTotal := req.totals.total,
    paymentStatus := req.paymentStatus,
    rejectionReason := none, trackingCarrier := none,
    trackingNumber := none, trackingURL := none }

/-- The `domain.SupplierOrderItem` built per cart item (sku_service.go
lines 151-167): flagged as a supplier item, with the mapped variant id,
exactly when its SKU is in the classification map. -/
def mkOrderItem (orderID : Nat) (supplierItems : SKUMap) (ci : CartItem) :
    SupplierOrderItem :=
  let base : SupplierOrderItem :=
    { supplierOrderID := orderID, sku := ci.sku, title := ci.title,
      price := ci.price, quantity := ci.quantity, productURL := ci.productURL,
      isSupplierItem := false, shopifyVariantID := none }
  match mapLookup supplierItems ci.sku with
  | some m => { base with isSupplierItem := true,
                          shopifyVariantID := some m.shopifyVariantID }
  | none => base

/-- Translation of `CreateOrderFromCart` (sku_service.go lines 112-187):
insert the order row, then the item rows as one batch, then append the
`order_created` audit event whose error is ignored.  The two inserts are
separate repository calls — there is no surrounding transaction — so a
failed batch insert returns an error while the order row stays committed. -/
def createOrderFromCart (renv : RepoEnv) (db : DB) (partnerID : Nat)
    (req : CartSubmitRequest) (supplierItems : SKUMap) :
    Except Unit SupplierOrder × DB :=
  let order := mkOrderFromCart renv.newOrderID partnerID req
  if renv.createOrderOK then
    let db1 := { db with orders := db.orders ++ [order] }
    let items := req.items.map (mkOrderItem order.id supplierItems)
    if renv.createItemsOK then
      let db2 := { db1 with items := db1.items ++ items }
      let db3 := if renv.createEventOK then
          appendEvent db2 { supplierOrderID := order.id,
                            eventType := "order_created",
                            eventData := [("partner_order_id", req.partnerOrderID)] }
        else db2
      (Except.ok order, db3)
    else
      (Except.error (), db1)
  else
    (Except.error (), db)

/-- Concrete inputs for the C4 counterexample: the order insert succeeds
and the batch item insert fails. -/
def c4RepoEnv : RepoEnv :=
  { newOrderID := 99, createOrderOK := true, createItemsOK := false,
    createEventOK := true }

def sampleReq : CartSubmitRequest :=
  { partnerOrderID := "PO-1",
    items := [{ sku := "A", title := "Ball", price := 10, quantity := 2,
                productURL := none }],
    customer := { name := "Ada L", phone := none },
    shipping := { street := "1 Way", city := "Town", state := none,
                  postalCode := "111", country := "JO" },
    totals := { subtotal := 20, tax := 0, shipping := 0, total := 20 },
    paymentStatus := "paid" }

def emptyDB : DB := { orders := [], items := [], events := [], idempotencyKeys := [] }

/-- C4 counterexample: the claim says that if the batch item insert fails,
no Order row remains visible.  On the code, with the order insert
succeeding and the batch item insert failing, `CreateOrderFromCart` returns
an error yet a subsequent read (`GetByID`) still sees the order row. -/
theorem createOrderFromCart_atomicity_cex :
    (createOrderFromCart c4RepoEnv emptyDB 7 sampleReq []).1 = Except.error () ∧
    getOrderByID (createOrderFromCart c4RepoEnv emptyDB 7 sampleReq []).2 99 ≠ none := by
  constructor
  · rfl
  · decide

/-- C4 amended: `CreateOrderFromCart` persists the Order and its items in
two separate repository writes with no surrounding transaction; if the
batch item insert fails the call returns an error, no item rows and no
audit event are written, but the already-inserted Order row remains visible
to subsequent reads — it is not rolled back. -/
theorem createOrderFromCart_partialPersistence (renv : RepoEnv) (db : DB)
    (partnerID : Nat) (req : CartSubmitRequest) (supplierItems : SKUMap)
    (hco : renv.createOrderOK = true) (hci : renv.createItemsOK = false) :
    (createOrderFromCart renv db partnerID req supplierItems).1 = Except.error () ∧
    (createOrderFromCart renv db partnerID req supplierItems).2.orders =
      db.orders ++ [mkOrderFromCart renv.newOrderID partnerID req] ∧
    (createOrderFromCart renv db partnerID req supplierItems).2.items = db.items ∧
    (createOrderFromCart renv db partnerID req supplierItems).2.events = db.events := by
  unfold createOrderFromCart
  rw [hco, hci]
  simp

/-- Witness for C4's amended theorem at the concrete counterexample input. -/
theorem createOrderFromCart_partialPersistence_witness :
    (createOrderFromCart c4RepoEnv emptyDB 7 sampleReq []).1 = Except.error () ∧
    (createOrderFromCart c4RepoEnv emptyDB 7 sampleReq []).2.orders =
      emptyDB.orders ++ [mkOrderFromCart 99 7 sampleReq] ∧
    (createOrderFromCart c4RepoEnv emptyDB 7 sampleReq []).2.items = emptyDB.items ∧
    (createOrderFromCart c4RepoEnv emptyDB 7 sampleReq []).2.events = emptyDB.events :=
  createOrderFromCart_partialPersistence c4RepoEnv emptyDB 7 sampleReq [] rfl rfl

/-! ## Order rejection (`orderService.RejectOrder`,
sku_service.go lines 224-256) -/

/-- Injected outcomes of the repository writes inside `RejectOrder`.  The
audit-event insert's error is ignored by the source, so its flag only
controls whether the event row lands. -/
structure RejectEnv where
  updateStatusOK : Bool
  createEventOK : Bool
  deriving DecidableEq, Repr

/-- Translation of `RejectOrder` (sku_service.go lines 224-256): load the
order (`notFound` when absent), validate the transition with
`CanTransitionTo` (returning `invalidStateTransition` carrying the from/to
statuses when disallowed), then persist the status change with the reason
and append the audit event. -/
def rejectOrder (env : RejectEnv) (db : DB) (orderID : Nat) (reason : String) :
    Except ServiceError Unit × DB :=
  match getOrderByID db orderID with
  | none => (Except.error ServiceError.notFound, db)
  | some order =>
    if order.status.canTransitionTo OrderStatus.rejected then
      if env.updateStatusOK then
        let db1 := updateOrderStatus db orderID OrderStatus.rejected (some reason)
        let db2 := if env.createEventOK then
            appendEvent db1 { supplierOrderID := orderID,
                              eventType := "status_change",
                              eventData := [("to", "REJECTED"), ("reason", reason)] }
          else db1
        (Except.ok (), db2)
      else
        (Except.error ServiceError.repoFailure, db)
    else
      (Except.error (ServiceError.invalidStateTransition order.status
                       OrderStatus.rejected), db)

/-- C6: for every order whose current status is REJECTED, DELIVERED, or
CANCELLED, `RejectOrder` returns the invalid-state-transition error
carrying the from and to statuses (a constructor distinct from the
not-found error), and leaves the store untouched: the order row is not
updated and no audit event is appended. -/
theorem rejectOrder_terminal (env : RejectEnv) (db : DB) (orderID : Nat)
    (reason : String) (order : SupplierOrder)
    (hfind : getOrderByID db orderID = some order)
    (hterm : order.status = OrderStatus.rejected ∨
             order.status = OrderStatus.delivered ∨
             order.status = OrderStatus.cancelled) :
    rejectOrder env db orderID reason =
      (Except.error (ServiceError.invalidStateTransition order.status
                       OrderStatus.rejected), db) := by
  unfold rejectOrder
  rw [hfind]
  have hfalse : order.status.canTransitionTo OrderStatus.rejected = false := by
    rcases hterm with h | h | h <;> rw [h] <;> rfl
  simp [hfalse]

/-- A store holding one already-rejected order, for the C6 witness. -/
def c6Order : SupplierOrder :=
  { id := 1, partnerID := 4, partnerOrderID := "PO-9",
    status := OrderStatus.rejected,
    shopifyDraftOrderID := none, shopifyOrderID := none,
    customerName := "Ada L", customerPhone := "",
    shippingAddress := [], cartTotal := 0, paymentStatus := "",
    rejectionReason := some "old", trackingCarrier := none,
    trackingNumber := none, trackingURL := none }

def c6DB : DB := { orders := [c6Order], items := [], events := [], idempotencyKeys := [] }

/-- Witness for C6 at a concrete store with a REJECTED order. -/
theorem rejectOrder_terminal_witness :
    rejectOrder { updateStatusOK := true, createEventOK := true } c6DB 1 "dup" =
      (Except.error (ServiceError.invalidStateTransition OrderStatus.rejected
                       OrderStatus.rejected), c6DB) :=
  rejectOrder_terminal { updateStatusOK := true, createEventOK := true }
    c6DB 1 "dup" c6Order rfl (Or.inl rfl)

/-! ## Cart submission handler (`HandleCartSubmit`, cart.go lines 61-184)

The middleware inputs (authenticated partner, idempotency info) and the
outcomes of the two downstream Shopify RPCs are injected through
`HandlerEnv`.  The downstream calls return `Except Unit Int`: `ok` carries
the extracted numeric id and `error` stands for any failure (transport
error, timeout, or platform user errors — the handler treats them all
alike, logging and continuing). -/

inductive HttpResponse where
  | unauthorized
  | internalError
  | unprocessableEntity
  | noContent
  | okOrder (supplierOrderID : Nat) (status : OrderStatus)
  deriving DecidableEq, Repr

structure HandlerEnv where
  /-- `middleware.GetPartnerFromContext`: `none` means unauthenticated. -/
  partner : Option Partner
  /-- Idempotency key from `middleware.GetIdempotencyInfo`; `""` = no key. -/
  idempotencyKey : String
  /-- Request-body hash from the middleware. -/
  requestHash : String
  /-- `some id` when the middleware flagged the request as an idempotent
  replay of the order with that id (`isExisting = true`). -/
  existingOrderID : Option Nat
  /-- The bound request body; `none` models a `ShouldBindJSON` failure. -/
  parsedReq : Option CartSubmitRequest
  /-- Outcome of `repos.SKUMapping.GetBySKU` per SKU. -/
  lookupSKU : String → Option SKUMapping
  /-- Outcomes of the repository calls inside `CreateOrderFromCart`. -/
  repo : RepoEnv
  /-- Outcome of `repos.SupplierOrderItem.GetByOrderID` before Step A. -/
  getItemsOK : Bool
  /-- Step A: `shopifyService.CreateDraftOrder`. -/
  createDraftResult : Except Unit Int
  /-- Outcome of `UpdateShopifyDraftOrderID` (failure only logged). -/
  updateDraftOK : Bool
  /-- Step B: `shopifyService.CompleteDraftOrder` on the Step A id. -/
  completeDraftResult : Int → Except Unit Int
  /-- Outcome of `UpdateShopifyOrderID` (failure only logged). -/
  updateOrderIDOK : Bool
  /-- Outcome of `repos.IdempotencyKey.Create` (failure only logged). -/
  createIdemOK : Bool

/-- The two-step downstream saga section (cart.go lines 132-162).  Every
failure is logged and absorbed: a failed item fetch or failed Step A leaves
the order untouched; after a successful Step A the draft id is persisted
(best-effort) and set on the in-memory order, and only then Step B runs;
a failed Step B leaves the finalized id unset. -/
def runShopifySaga (env : HandlerEnv) (order : SupplierOrder) (db : DB) :
    SupplierOrder × DB :=
  if env.getItemsOK then
    match env.createDraftResult with
    | Except.error _ => (order, db)
    | Except.ok draftOrderID =>
      let db1 := if env.updateDraftOK then
          updateShopifyDraftOrderID db order.id draftOrderID
        else db
      let order1 := { order with shopifyDraftOrderID := some draftOrderID }
      match env.completeDraftResult draftOrderID with
      | Except.error _ => (order1, db1)
      | Except.ok shopifyOrderID =>
        let db2 := if env.updateOrderIDOK then
            updateShopifyOrderID db1 order1.id shopifyOrderID
          else db1
        ({ order1 with shopifyOrderID := some shopifyOrderID }, db2)
  else (order, db)

/-- The idempotency-recording section (cart.go lines 164-177): runs only
when a key was provided, after the order exists; a failed insert is logged
and absorbed. -/
def recordIdempotencyKey (env : HandlerEnv) (partner : Partner)
    (order : SupplierOrder) (db : DB) : DB :=
  if env.idempotencyKey = "" then db
  else if env.createIdemOK then
    { db with idempotencyKeys := db.idempotencyKeys ++
        [{ key := env.idempotencyKey, partnerID := partner.id,
           supplierOrderID := order.id, requestHash := env.requestHash }] }
  else db

/-- Translation of `HandleCartSubmit` (cart.go lines 61-184).  Returns the
HTTP response, the in-memory order value at response time (as the response
serializer sees it), and the final store.  The `err != nil` branch after
`CheckCartForSupplierSKUs` is dead code in the source (the function always
returns a nil error) and is omitted. -/
def handleCartSubmit (env : HandlerEnv) (db : DB) :
    HttpResponse × Option SupplierOrder × DB :=
  match env.partner with
  | none => (HttpResponse.unauthorized, none, db)
  | some partner =>
    match env.existingOrderID with
    | some existingID =>
      match getOrderByID db existingID with
      | none => (HttpResponse.internalError, none, db)
      | some order => (HttpResponse.okOrder order.id order.status, some order, db)
    | none =>
      match env.parsedReq with
      | none => (HttpResponse.unprocessableEntity, none, db)
      | some req =>
        let checked := checkCartForSupplierSKUs env.lookupSKU req.items
        if checked.1 then
          match createOrderFromCart env.repo db partner.id req checked.2 with
          | (Except.error _, db1) => (HttpResponse.internalError, none, db1)
          | (Except.ok order, db1) =>
            let sagaOut := runShopifySaga env order db1
            let db2 := recordIdempotencyKey env partner sagaOut.1 sagaOut.2
            (HttpResponse.okOrder sagaOut.1.id sagaOut.1.status, some sagaOut.1, db2)
        else (HttpResponse.noContent, none, db)

theorem runShopifySaga_id (env : HandlerEnv) (order : SupplierOrder) (db : DB) :
    (runShopifySaga env order db).1.id = order.id := by
  unfold runShopifySaga
  cases hgi : env.getItemsOK
  · simp
  · cases hdr : env.createDraftResult with
    | error e => simp
    | ok d =>
      cases hc : env.completeDraftResult d with
      | error e => simp [hc]
      | ok o => simp [hc]

theorem runShopifySaga_idemKeys (env : HandlerEnv) (order : SupplierOrder)
    (db : DB) :
    (runShopifySaga env order db).2.idempotencyKeys = db.idempotencyKeys := by
  unfold runShopifySaga
  cases hgi : env.getItemsOK
  · simp
  · cases hdr : env.createDraftResult with
    | error e => simp
    | ok d =>
      cases hc : env.completeDraftResult d with
      | error e =>
        cases hud : env.updateDraftOK <;>
          simp [hc, hud, updateShopifyDraftOrderID]
      | ok o =>
        cases hud : env.updateDraftOK <;> cases huo : env.updateOrderIDOK <;>
          simp [hc, hud, huo, updateShopifyDraftOrderID, updateShopifyOrderID]

theorem createOrderFromCart_idemKeys (renv : RepoEnv) (db : DB)
    (partnerID : Nat) (req : CartSubmitRequest) (supplierItems : SKUMap) :
    (createOrderFromCart renv db partnerID req supplierItems).2.idempotencyKeys =
      db.idempotencyKeys := by
  unfold createOrderFromCart
  cases hco : renv.createOrderOK
  · simp
  · cases hci : renv.createItemsOK <;> cases hce : renv.createEventOK <;>
      simp [hci, hce, appendEvent]

theorem createOrderFromCart_error_of_flags (renv : RepoEnv) (db : DB)
    (partnerID : Nat) (req : CartSubmitRequest) (supplierItems : SKUMap)
    (h : renv.createOrderOK = false ∨ renv.createItemsOK = false) :
    (createOrderFromCart renv db partnerID req supplierItems).1 =
      Except.error () := by
  unfold createOrderFromCart
  rcases h with h | h
  · simp [h]
  · cases hco : renv.createOrderOK <;> simp [h]

theorem recordIdempotencyKey_mem (env : HandlerEnv) (partner : Partner)
    (order : SupplierOrder) (db : DB) (rec : IdempotencyKey)
    (h : rec ∈ (recordIdempotencyKey env partner order db).idempotencyKeys) :
    rec ∈ db.idempotencyKeys ∨ rec.supplierOrderID = order.id := by
  unfold recordIdempotencyKey at h
  by_cases hk : env.idempotencyKey = ""
  · rw [if_pos hk] at h
    exact Or.inl h
  · rw [if_neg hk] at h
    cases hc : env.createIdemOK
    · rw [hc] at h
      simp at h
      exact Or.inl h
    · rw [hc] at h
      simp at h
      rcases h with h | h
      · exact Or.inl h
      · exact Or.inr (by rw [h])

theorem recordIdempotencyKey_orders (env : HandlerEnv) (partner : Partner)
    (order : SupplierOrder) (db : DB) :
    (recordIdempotencyKey env partner order db).orders = db.orders := by
  unfold recordIdempotencyKey
  by_cases hk : env.idempotencyKey = ""
  · rw [if_pos hk]
  · rw [if_neg hk]
    cases hc : env.createIdemOK <;> simp

theorem createOrderFromCart_ok_of_flags (renv : RepoEnv) (db : DB)
    (partnerID : Nat) (req : CartSubmitRequest) (supplierItems : SKUMap)
    (hco : renv.createOrderOK = true) (hci : renv.createItemsOK = true) :
    (createOrderFromCart renv db partnerID req supplierItems).1 =
      Except.ok (mkOrderFromCart renv.newOrderID partnerID req) ∧
    (createOrderFromCart renv db partnerID req supplierItems).2.orders =
      db.orders ++ [mkOrderFromCart renv.newOrderID partnerID req] := by
  unfold createOrderFromCart
  cases hce : renv.createEventOK <;> simp [hco, hci, hce, appendEvent]

theorem runShopifySaga_partialFailure (env : HandlerEnv)
    (order : SupplierOrder) (db : DB) (d : Int)
    (hgi : env.getItemsOK = true)
    (hdr : env.createDraftResult = Except.ok d)
    (hud : env.updateDraftOK = true)
    (hcd : env.completeDraftResult d = Except.error ()) :
    runShopifySaga env order db =
      ({ order with shopifyDraftOrderID := some d },
       updateShopifyDraftOrderID db order.id d) := by
  unfold runShopifySaga
  simp [hgi, hdr, hud, hcd]

/-- C9: if no SKU in a submitted cart resolves to an active SKU mapping
(`hasSupplierSKU` is false), `HandleCartSubmit` responds 204 No Content and
creates nothing: the store is returned unchanged, so no Order, no
OrderItems, no IdempotencyRecord are written, and the downstream
draft-order step is never reached. -/
theorem handleCartSubmit_noSupplierSKU (env : HandlerEnv) (db : DB)
    (partner : Partner) (req : CartSubmitRequest)
    (hp : env.partner = some partner)
    (hex : env.existingOrderID = none)
    (hreq : env.parsedReq = some req)
    (hsku : (checkCartForSupplierSKUs env.lookupSKU req.items).1 = false) :
    handleCartSubmit env db = (HttpResponse.noContent, none, db) := by
  unfold handleCartSubmit
  simp [hp, hex, hreq, hsku]

/-- A cart whose only SKU has no mapping, for the C9 witness. -/
def c9Env : HandlerEnv :=
  { partner := some { id := 4, name := "P" },
    idempotencyKey := "K9", requestHash := "H9",
    existingOrderID := none,
    parsedReq := some sampleReq,
    lookupSKU := fun _ => none,
    repo := { newOrderID := 42, createOrderOK := true, createItemsOK := true,
              createEventOK := true },
    getItemsOK := true,
    createDraftResult := Except.ok 555,
    updateDraftOK := true,
    completeDraftResult := fun _ => Except.ok 777,
    updateOrderIDOK := true,
    createIdemOK := true }

/-- Witness for C9 at a concrete cart with no mapped SKU. -/
theorem handleCartSubmit_noSupplierSKU_witness :
    handleCartSubmit c9Env emptyDB = (HttpResponse.noContent, none, emptyDB) :=
  handleCartSubmit_noSupplierSKU c9Env emptyDB { id := 4, name := "P" }
    sampleReq rfl rfl rfl rfl

/-- C1: if Step A (draft-order creation) succeeds with id `d` and Step B
(finalization) fails, the cart-submission operation still returns success
(HTTP 200) with the created order: the returned order and its stored row
carry `ShopifyDraftOrderID = d` while `ShopifyOrderID` remains unset, and
the already-committed Order row is still present in the store — it is never
rolled back. -/
theorem handleCartSubmit_sagaPartialFailure (env : HandlerEnv) (db : DB)
    (partner : Partner) (req : CartSubmitRequest) (d : Int)
    (hp : env.partner = some partner)
    (hex : env.existingOrderID = none)
    (hreq : env.parsedReq = some req)
    (hsku : (checkCartForSupplierSKUs env.lookupSKU req.items).1 = true)
    (hco : env.repo.createOrderOK = true)
    (hci : env.repo.createItemsOK = true)
    (hgi : env.getItemsOK = true)
    (hdr : env.createDraftResult = Except.ok d)
    (hud : env.updateDraftOK = true)
    (hcd : env.completeDraftResult d = Except.error ()) :
    ∃ order : SupplierOrder,
      (handleCartSubmit env db).1 = HttpResponse.okOrder order.id order.status ∧
      (handleCartSubmit env db).2.1 = some order ∧
      order.id = env.repo.newOrderID ∧
      order.shopifyDraftOrderID = some d ∧
      order.shopifyOrderID = none ∧
      ∃ row ∈ (handleCartSubmit env db).2.2.orders,
        row.id = order.id ∧ row.shopifyDraftOrderID = some d ∧
        row.shopifyOrderID = none := by
  have hok := createOrderFromCart_ok_of_flags env.repo db partner.id req
    (checkCartForSupplierSKUs env.lookupSKU req.items).2 hco hci
  rcases hcr : createOrderFromCart env.repo db partner.id req
      (checkCartForSupplierSKUs env.lookupSKU req.items).2 with ⟨res, db1⟩
  rw [hcr] at hok
  obtain ⟨hres, hord⟩ := hok
  simp only at hres hord
  subst hres
  unfold handleCartSubmit
  simp only [hp, hex, hreq, hsku, if_true, hcr]
  rw [runShopifySaga_partialFailure env _ db1 d hgi hdr hud hcd]
  refine ⟨{ mkOrderFromCart env.repo.newOrderID partner.id req with
            shopifyDraftOrderID := some d }, rfl, rfl, rfl, rfl, rfl, ?_⟩
  refine ⟨{ mkOrderFromCart env.repo.newOrderID partner.id req with
            shopifyDraftOrderID := some d }, ?_, rfl, rfl, rfl⟩
  rw [recordIdempotencyKey_orders]
  unfold updateShopifyDraftOrderID
  simp only
  have hmem : mkOrderFromCart env.repo.newOrderID partner.id req ∈ db1.orders := by
    rw [hord]
    exact List.mem_append_right _ (List.mem_singleton.mpr rfl)
  have := List.mem_map_of_mem (fun o =>
    if o.id = (mkOrderFromCart env.repo.newOrderID partner.id req).id then
      { o with shopifyDraftOrderID := some d } else o) hmem
  simpa using this

/-- Concrete environment for the C1 witness: cart with one mapped active
SKU, both inserts succeed, Step A yields 555, Step B times out. -/
def c1Mapping : SKUMapping :=
  { sku := "A", shopifyProductID := 100, shopifyVariantID := 200, isActive := true }

def c1Env : HandlerEnv :=
  { partner := some { id := 4, name := "P" },
    idempotencyKey := "K1", requestHash := "H1",
    existingOrderID := none,
    parsedReq := some sampleReq,
    lookupSKU := fun s => if s = "A" then some c1Mapping else none,
    repo := { newOrderID := 42, createOrderOK := true, createItemsOK := true,
              createEventOK := true },
    getItemsOK := true,
    createDraftResult := Except.ok 555,
    updateDraftOK := true,
    completeDraftResult := fun _ => Except.error (),
    updateOrderIDOK := true,
    createIdemOK := true }

/-- Witness for C1 at the concrete environment. -/
theorem handleCartSubmit_sagaPartialFailure_witness :
    ∃ order : SupplierOrder,
      (handleCartSubmit c1Env emptyDB).1 = HttpResponse.okOrder order.id order.status ∧
      (handleCartSubmit c1Env emptyDB).2.1 = some order ∧
      order.id = c1Env.repo.newOrderID ∧
      order.shopifyDraftOrderID = some 555 ∧
      order.shopifyOrderID = none ∧
      ∃ row ∈ (handleCartSubmit c1Env emptyDB).2.2.orders,
        row.id = order.id ∧ row.shopifyDraftOrderID = some 555 ∧
        row.shopifyOrderID = none :=
  handleCartSubmit_sagaPartialFailure c1Env emptyDB { id := 4, name := "P" }
    sampleReq 555 rfl rfl rfl (by decide) rfl rfl rfl rfl rfl rfl

/-- C3: in every execution of cart submission, any IdempotencyRecord
present at the end that was not already in the store is associated with the
id of the order the execution created and returned with HTTP 200 — the
record is only written after the order exists; and if order creation fails
(the order insert or the batch item insert errored), the idempotency store
is left exactly as before, so a retry with the same key finds no record and
proceeds as Fresh. -/
theorem handleCartSubmit_idempotencyAfterCreate (env : HandlerEnv) (db : DB) :
    (∀ rec : IdempotencyKey,
      rec ∈ (handleCartSubmit env db).2.2.idempotencyKeys →
      rec ∈ db.idempotencyKeys ∨
      ∃ order : SupplierOrder,
        (handleCartSubmit env db).2.1 = some order ∧
        rec.supplierOrderID = order.id ∧
        (handleCartSubmit env db).1 = HttpResponse.okOrder order.id order.status) ∧
    ((env.repo.createOrderOK = false ∨ env.repo.createItemsOK = false) →
      (handleCartSubmit env db).2.2.idempotencyKeys = db.idempotencyKeys) := by
  cases hp : env.partner with
  | none =>
    simp only [handleCartSubmit, hp]
    exact ⟨fun rec h => Or.inl h, fun _ => trivial⟩
  | some partner =>
    cases hex : env.existingOrderID with
    | some existingID =>
      cases hfe : getOrderByID db existingID with
      | none =>
        simp only [handleCartSubmit, hp, hex, hfe]
        exact ⟨fun rec h => Or.inl h, fun _ => trivial⟩
      | some o =>
        simp only [handleCartSubmit, hp, hex, hfe]
        exact ⟨fun rec h => Or.inl h, fun _ => trivial⟩
    | none =>
      cases hreq : env.parsedReq with
      | none =>
        simp only [handleCartSubmit, hp, hex, hreq]
        exact ⟨fun rec h => Or.inl h, fun _ => trivial⟩
      | some req =>
        by_cases hsku :
            (checkCartForSupplierSKUs env.lookupSKU req.items).1 = true
        · rcases hcr : createOrderFromCart env.repo db partner.id req
              (checkCartForSupplierSKUs env.lookupSKU req.items).2 with ⟨res, db1⟩
          have hkeys1 : db1.idempotencyKeys = db.idempotencyKeys := by
            have := createOrderFromCart_idemKeys env.repo db partner.id req
              (checkCartForSupplierSKUs env.lookupSKU req.items).2
            rw [hcr] at this
            exact this
          cases res with
          | error e =>
            simp only [handleCartSubmit, hp, hex, hreq, hsku, if_true, hcr]
            exact ⟨fun rec h => Or.inl (hkeys1 ▸ h), fun _ => hkeys1⟩
          | ok order =>
            simp only [handleCartSubmit, hp, hex, hreq, hsku, if_true, hcr]
            constructor
            · intro rec hmem
              have hsaga : (runShopifySaga env order db1).2.idempotencyKeys =
                  db.idempotencyKeys := by
                rw [runShopifySaga_idemKeys]; exact hkeys1
              rcases recordIdempotencyKey_mem env partner
                  (runShopifySaga env order db1).1
                  (runShopifySaga env order db1).2 rec hmem with h | h
              · exact Or.inl (hsaga ▸ h)
              · exact Or.inr ⟨(runShopifySaga env order db1).1, rfl, h, rfl⟩
            · intro hflags
              have herr := createOrderFromCart_error_of_flags env.repo db
                partner.id req
                (checkCartForSupplierSKUs env.lookupSKU req.items).2 hflags
              rw [hcr] at herr
              exact absurd herr (by simp)
        · have hsku2 : (checkCartForSupplierSKUs env.lookupSKU req.items).1 = false :=
            Bool.not_eq_true _ ▸ hsku
          simp only [handleCartSubmit, hp, hex, hreq, hsku2, Bool.false_eq_true,
            if_false]
          exact ⟨fun rec h => Or.inl h, fun _ => trivial⟩

/-- Concrete environment for the C3 witness: identical to the C1
environment except that Step B also succeeds; the run appends exactly one
idempotency record, tied to the created order id 42. -/
def c3Env : HandlerEnv :=
  { partner := some { id := 4, name := "P" },
    idempotencyKey := "K3", requestHash := "H3",
    existingOrderID := none,
    parsedReq := some sampleReq,
    lookupSKU := fun s => if s = "A" then some c1Mapping else none,
    repo := { newOrderID := 42, createOrderOK := true, createItemsOK := true,
              createEventOK := true },
    getItemsOK := true,
    createDraftResult := Except.ok 555,
    updateDraftOK := true,
    completeDraftResult := fun _ => Except.ok 777,
    updateOrderIDOK := true,
    createIdemOK := true }

def c3Rec : IdempotencyKey :=
  { key := "K3", partnerID := 4, supplierOrderID := 42, requestHash := "H3" }

/-- Witness for C3: at the concrete environment, the record the run wrote
is tied to the created order and the 200 response. -/
theorem handleCartSubmit_idempotencyAfterCreate_witness :
    c3Rec ∈ (handleCartSubmit c3Env emptyDB).2.2.idempotencyKeys ∧
    (c3Rec ∈ emptyDB.idempotencyKeys ∨
      ∃ order : SupplierOrder,
        (handleCartSubmit c3Env emptyDB).2.1 = some order ∧
        c3Rec.supplierOrderID = order.id ∧
        (handleCartSubmit c3Env emptyDB).1 =
          HttpResponse.okOrder order.id order.status) :=
  ⟨by decide,
   (handleCartSubmit_idempotencyAfterCreate c3Env emptyDB).1 c3Rec (by decide)⟩

/-! ## Order fetch handler (`HandleGetOrder`, orders.go lines 48-142) -/

/-- `handlers.OrderItemResponse`. -/
structure OrderItemResponse where
  sku : String
  title : String
  price : Int
  quantity : Nat
  productURL : Option String
  isSupplierItem : Bool
  shopifyVariantID : Option Int
  deriving DecidableEq, Repr

/-- `handlers.OrderResponse` (the fields the handler fills from the order
row; `""` stands for an omitted optional string, as with `omitempty`). -/
structure OrderResponse where
  id : Nat
  partnerOrderID : String
  status : OrderStatus
  shopifyDraftOrderID : Option Int
  customerName : String
  customerPhone : String
  shippingAddress : List (String × String)
  cartTotal : Int
  paymentStatus : String
  rejectionReason : Option String
  trackingCarrier : Option String
  trackingNumber : Option String
  trackingURL : Option String
  items : List OrderItemResponse
  deriving DecidableEq, Repr

/-- The possible responses of `HandleGetOrder`.  Every non-`ok` response
carries no order data. -/
inductive GetOrderResult where
  | unauthorized
  | badRequest
  | notFound
  | internalError
  | forbidden
  | ok (resp : OrderResponse)
  deriving DecidableEq, Repr

/-- Inputs of `HandleGetOrder` supplied by middleware and path parsing;
`getItemsOK` injects the outcome of the item fetch that runs after the
ownership check. -/
structure GetOrderEnv where
  partner : Option Partner
  orderIDParam : Option Nat
  getItemsOK : Bool
  deriving Repr

/-- Translation of `HandleGetOrder` (orders.go lines 48-142): authenticate,
parse the path id, load the order (404 when absent), verify
`order.PartnerID == partner.ID` — responding 403 `access denied` with no
order fields otherwise — then fetch the items and build the full response. -/
def handleGetOrder (env : GetOrderEnv) (db : DB) : GetOrderResult :=
  match env.partner with
  | none => GetOrderResult.unauthorized
  | some partner =>
    match env.orderIDParam with
    | none => GetOrderResult.badRequest
    | some orderID =>
      match getOrderByID db orderID with
      | none => GetOrderResult.notFound
      | some order =>
        if order.partnerID = partner.id then
          if env.getItemsOK then
            GetOrderResult.ok
              { id := order.id, partnerOrderID := order.partnerOrderID,
                status := order.status,
                shopifyDraftOrderID := order.shopifyDraftOrderID,
                customerName := order.customerName,
                customerPhone := order.customerPhone,
                shippingAddress := order.shippingAddress,
                cartTotal := order.cartTotal,
                paymentStatus := order.paymentStatus,
                rejectionReason := order.rejectionReason,
                trackingCarrier := order.trackingCarrier,
                trackingNumber := order.trackingNumber,
                trackingURL := order.trackingURL,
                items := (getItemsByOrderID db orderID).map (fun it =>
                  { sku := it.sku, title := it.title, price := it.price,
                    quantity := it.quantity, productURL := it.productURL,
                    isSupplierItem := it.isSupplierItem,
                    shopifyVariantID := it.shopifyVariantID }) }
          else GetOrderResult.internalError
        else GetOrderResult.forbidden

/-- C10: `HandleGetOrder` returns order data only when the requested
order's `PartnerID` equals the authenticated partner's id; for every
existing order owned by a different partner it responds 403 `access denied`
— a response carrying no order fields — and any `ok` response implies the
authenticated partner owns the order it discloses. -/
theorem handleGetOrder_accessControl (env : GetOrderEnv) (db : DB)
    (partner : Partner) (orderID : Nat) (order : SupplierOrder)
    (hp : env.partner = some partner)
    (hid : env.orderIDParam = some orderID)
    (hfind : getOrderByID db orderID = some order) :
    (order.partnerID ≠ partner.id → handleGetOrder env db = GetOrderResult.forbidden) ∧
    (∀ resp : OrderResponse, handleGetOrder env db = GetOrderResult.ok resp →
      order.partnerID = partner.id ∧ resp.id = order.id) := by
  constructor
  · intro hne
    simp only [handleGetOrder, hp, hid, hfind, if_neg hne]
  · intro resp hok
    by_cases heq : order.partnerID = partner.id
    · refine ⟨heq, ?_⟩
      simp only [handleGetOrder, hp, hid, hfind, if_pos heq] at hok
      cases hgi : env.getItemsOK
      · rw [hgi] at hok
        simp at hok
      · rw [hgi] at hok
        simp only [if_true] at hok
        cases hok
        rfl
    · simp only [handleGetOrder, hp, hid, hfind, if_neg heq] at hok
      cases hok

/-- A store with one order owned by partner 2, queried by partner 1, for
the C10 witness. -/
def c10Order : SupplierOrder :=
  { id := 8, partnerID := 2, partnerOrderID := "PO-8",
    status := OrderStatus.pendingConfirmation,
    shopifyDraftOrderID := none, shopifyOrderID := none,
    customerName := "Ada L", customerPhone := "",
    shippingAddress := [], cartTotal := 0, paymentStatus := "",
    rejectionReason := none, trackingCarrier := none,
    trackingNumber := none, trackingURL := none }

def c10DB : DB := { orders := [c10Order], items := [], events := [], idempotencyKeys := [] }

def c10Env : GetOrderEnv :=
  { partner := some { id := 1, name := "Q" }, orderIDParam := some 8,
    getItemsOK := true }

/-- Witness for C10: the cross-partner read is answered with 403. -/
theorem handleGetOrder_accessControl_witness :
    handleGetOrder c10Env c10DB = GetOrderResult.forbidden :=
  (handleGetOrder_accessControl c10Env c10DB { id := 1, name := "Q" } 8 c10Order
    rfl rfl rfl).1 (by decide)

end B2B
